import Mathlib

/-!
Shallow embedding of the paper-bot retrieval-and-grounded-generation
pipeline (`applications/rag/paper_bot/pb_utils.py`).

The external collaborators (the FAISS similarity index and the Cohere
rerank / chat services) are modelled as abstract functions gathered in an
environment; the spec's contracts on them become explicit hypotheses.
The code under `src/` is embedded faithfully: `Vectorstore.retrieve`
becomes `retrieve`, the argument assembly of `PaperBot.chat_completion`
becomes `chat_stream_call`, and the event-stream demultiplexing loop
becomes `processStream` / `chat_completion_output`.
-/

namespace PaperBotSpec

/-- A langchain `Document` as consumed by `Vectorstore.retrieve`:
`page_content` plus a metadata dictionary (modelled as key/value pairs). -/
structure Document where
  page_content : String
  metadata : List (String × String)
deriving DecidableEq

/-- An element of the list returned by `Vectorstore.retrieve`: the dict
`{"text": ..., "metadata": ...}` built from the reranked candidates. -/
structure RetrievedDoc where
  text : String
  metadata : List (String × String)
deriving DecidableEq

/-- `self.retrieve_top_k = 10` set in `Vectorstore.__init__`. -/
def retrieve_top_k : Nat := 10

/-- `self.rerank_top_k = 3` set in `Vectorstore.__init__`. -/
def rerank_top_k : Nat := 3

/-- The external services `Vectorstore.retrieve` calls:
`similarity_search query k` is `self.vs.similarity_search(query, k)`, and
`rerank query docs top_n` returns the `result.index` fields of
`co.rerank(query=query, documents=docs, top_n=top_n).results` in order. -/
structure Env where
  similarity_search : String → Nat → List Document
  rerank : String → List String → Nat → List Nat

/-- The list comprehension building `reranked_docs`: for each rerank
result index `i`, look up `retrieved_docs[i]` and project text and
metadata.  An out-of-range index is a Python `IndexError`, modelled as
`none`. -/
def rerankSelect (retrieved_docs : List Document) : List Nat → Option (List RetrievedDoc)
  | [] => some []
  | i :: rest =>
    match retrieved_docs.get? i with
    | none => none
    | some d =>
      match rerankSelect retrieved_docs rest with
      | none => none
      | some tail => some ({ text := d.page_content, metadata := d.metadata } :: tail)

/-- `Vectorstore.retrieve`: dense retrieval with `retrieve_top_k`, then
rerank the page contents with `rerank_top_k`, then map the rerank result
indices back to the candidates. -/
def retrieve (env : Env) (query : String) : Option (List RetrievedDoc) :=
  let retrieved_docs := env.similarity_search query retrieve_top_k
  let rd_page_content := retrieved_docs.map (fun d => d.page_content)
  let rerank_results := env.rerank query rd_page_content rerank_top_k
  rerankSelect retrieved_docs rerank_results

/-- The spec's contract on the external reranker (spec section 4.3): the
result has length at most `top_n` and every returned index refers to one
of the input documents. -/
def RerankContract (env : Env) : Prop :=
  ∀ q docs n, (env.rerank q docs n).length ≤ n ∧
    ∀ i ∈ env.rerank q docs n, i < docs.length

/-- `PaperBot`: holds the conversation id generated once in `__init__`
(`str(uuid.uuid4())`, taken here as a parameter of construction). -/
structure PaperBot where
  conversation_id : String
deriving DecidableEq

/-- `PaperBot.__init__` with the freshly drawn uuid as input. -/
def PaperBot.init (uuid : String) : PaperBot :=
  { conversation_id := uuid }

/-- An element of `document_contents`: the dict `{"text": doc["text"]}` —
only the text field, no metadata. -/
structure DocContent where
  text : String
deriving DecidableEq

/-- The argument record of the `co.chat_stream(...)` call made by
`PaperBot.chat_completion`; `documents = none` means the keyword argument
was omitted. -/
structure ChatStreamCall where
  message : String
  model : String
  documents : Option (List DocContent)
  conversation_id : String
deriving DecidableEq

/-- The retrieval loop of `chat_completion`: `documents.extend(
self.vectorstore.retrieve(query.text))` over the search queries in
order. -/
def documentsAccum (retrieveFn : String → List RetrievedDoc) : List String → List RetrievedDoc
  | [] => []
  | q :: qs => retrieveFn q ++ documentsAccum retrieveFn qs

/-- The branch of `chat_completion` choosing the `co.chat_stream` call:
with a non-empty `response.search_queries` the accumulated documents are
projected to their text fields and passed; otherwise the `documents`
keyword is omitted. -/
def chat_stream_call (bot : PaperBot) (retrieveFn : String → List RetrievedDoc)
    (search_queries : List String) (message : String) : ChatStreamCall :=
  if search_queries ≠ [] then
    let documents := documentsAccum retrieveFn search_queries
    let document_contents := documents.map (fun d => DocContent.mk d.text)
    { message := message, model := "command-r",
      documents := some document_contents,
      conversation_id := bot.conversation_id }
  else
    { message := message, model := "command-r",
      documents := none,
      conversation_id := bot.conversation_id }

/-- An element of `event.documents` of a search-results event. -/
structure CitedDoc where
  id : String
deriving DecidableEq

/-- One event of the `co.chat_stream` response, tagged by
`event.event_type`. -/
inductive StreamEvent where
  | textGeneration (text : String)
  | citationGeneration (citations : List String)
  | searchResults (documents : List CitedDoc)
deriving DecidableEq

/-- The three accumulators of the display loop of `chat_completion`:
`stream_responses`, `citations` and `cited_documents`. -/
structure StreamState where
  stream_responses : List String
  citations : List String
  cited_documents : List CitedDoc
deriving DecidableEq

/-- One iteration of `for event in response`: text events append to
`stream_responses`, citation events extend `citations`, search-results
events replace `cited_documents`. -/
def stepEvent (s : StreamState) : StreamEvent → StreamState
  | .textGeneration t => { s with stream_responses := s.stream_responses ++ [t] }
  | .citationGeneration cs => { s with citations := s.citations ++ cs }
  | .searchResults ds => { s with cited_documents := ds }

/-- The whole event loop, starting from the empty accumulators. -/
def processStream (events : List StreamEvent) : StreamState :=
  events.foldl stepEvent { stream_responses := [], citations := [], cited_documents := [] }

/-- The trailing block appended after the loop: if `citations` is
non-empty, the CITATIONS header, each citation, the DOCUMENTS header and
each cited document id followed by a comma and a space. -/
def citationBlock (citations : List String) (cited_documents : List CitedDoc) : List String :=
  if citations ≠ [] then
    "\n\nCITATIONS:" :: (citations ++ ["\nDOCUMENTS:"]
      ++ cited_documents.map (fun d => d.id ++ ", "))
  else []

/-- The full output sequence yielded by `chat_completion` for a given
event stream: the text chunks in arrival order, then the citation
block. -/
def chat_completion_output (events : List StreamEvent) : List String :=
  let s := processStream events
  s.stream_responses ++ citationBlock s.citations s.cited_documents

/-- `event.event_type == "text-generation"`. -/
def isTextEvent : StreamEvent → Bool
  | .textGeneration _ => true
  | _ => false

/-- `event.event_type == "citation-generation"`. -/
def isCitationEvent : StreamEvent → Bool
  | .citationGeneration _ => true
  | _ => false

example : retrieve ⟨fun _ _ => [⟨"a", []⟩, ⟨"b", []⟩], fun _ _ _ => [1, 0]⟩ "q"
    = some [⟨"b", []⟩, ⟨"a", []⟩] := by decide

example : chat_completion_output
    [.textGeneration "x", .citationGeneration ["c1"], .searchResults [⟨"d1"⟩]]
    = ["x", "\n\nCITATIONS:", "c1", "\nDOCUMENTS:", "d1, "] := by decide

theorem rerankSelect_length (docs : List Document) :
    ∀ idxs out, rerankSelect docs idxs = some out → out.length = idxs.length := by
  intro idxs
  induction idxs with
  | nil =>
    intro out h
    simp only [rerankSelect, Option.some.injEq] at h
    simp [← h]
  | cons i rest ih =>
    intro out h
    simp only [rerankSelect] at h
    cases hg : docs.get? i with
    | none => rw [hg] at h; cases h
    | some d =>
      rw [hg] at h
      cases hr : rerankSelect docs rest with
      | none => rw [hr] at h; cases h
      | some tail =>
        rw [hr] at h
        injection h with h
        simp [← h, ih tail hr]

theorem rerankSelect_subset (docs : List Document) :
    ∀ idxs out, rerankSelect docs idxs = some out →
      ∀ p ∈ out, ∃ d ∈ docs, p.text = d.page_content ∧ p.metadata = d.metadata := by
  intro idxs
  induction idxs with
  | nil =>
    intro out h p hp
    simp only [rerankSelect, Option.some.injEq] at h
    rw [← h] at hp
    cases hp
  | cons i rest ih =>
    intro out h p hp
    simp only [rerankSelect] at h
    cases hg : docs.get? i with
    | none => rw [hg] at h; cases h
    | some d =>
      rw [hg] at h
      cases hr : rerankSelect docs rest with
      | none => rw [hr] at h; cases h
      | some tail =>
        rw [hr] at h
        injection h with h
        rw [← h] at hp
        rcases List.mem_cons.mp hp with hp1 | hp2
        · exact ⟨d, List.get?_mem hg, by simp [hp1]⟩
        · exact ih tail hr p hp2

theorem rerankSelect_total (docs : List Document) :
    ∀ idxs, (∀ i ∈ idxs, i < docs.length) → ∃ out, rerankSelect docs idxs = some out := by
  intro idxs
  induction idxs with
  | nil => intro _; exact ⟨[], rfl⟩
  | cons i rest ih =>
    intro h
    obtain ⟨tail, htail⟩ := ih (fun j hj => h j (List.mem_cons_of_mem _ hj))
    have hi : i < docs.length := h i (List.mem_cons_self _ _)
    refine ⟨{ text := docs[i].page_content, metadata := docs[i].metadata } :: tail, ?_⟩
    simp [rerankSelect, List.getElem?_eq_getElem hi, htail]

/-- Claim C1: for every query, `Vectorstore.retrieve` (with a reranker
satisfying its contract) returns a sequence of length at most
`rerank_top_k`, and `rerank_top_k` is at most `retrieve_top_k`. -/
theorem retrieve_length_le_rerank_top_k (env : Env) (query : String)
    (hc : RerankContract env) :
    ∃ out, retrieve env query = some out ∧
      out.length ≤ rerank_top_k ∧ rerank_top_k ≤ retrieve_top_k := by
  unfold retrieve
  set docs := env.similarity_search query retrieve_top_k with hdocs
  obtain ⟨hlen, hmem⟩ := hc query (docs.map (fun d => d.page_content)) rerank_top_k
  obtain ⟨out, hout⟩ := rerankSelect_total docs _ (fun i hi => by
    have := hmem i hi
    simpa using this)
  refine ⟨out, hout, ?_, by decide⟩
  rw [rerankSelect_length docs _ out hout]
  exact hlen

theorem retrieve_length_le_rerank_top_k_witness :
    RerankContract ⟨fun _ _ => [], fun _ _ _ => []⟩ ∧
    ∃ out, retrieve ⟨fun _ _ => [], fun _ _ _ => []⟩ "q" = some out ∧
      out.length ≤ rerank_top_k ∧ rerank_top_k ≤ retrieve_top_k := by
  have hc : RerankContract ⟨fun _ _ => [], fun _ _ _ => []⟩ := by
    intro q docs n
    exact ⟨Nat.zero_le n, by intro i hi; cases hi⟩
  exact ⟨hc, retrieve_length_le_rerank_top_k _ "q" hc⟩

/-- Claim C2: every passage returned by `Vectorstore.retrieve` has the
text and metadata of some candidate returned by the index similarity
search for the same query; no outside passage is introduced. -/
theorem retrieve_subset_of_candidates (env : Env) (query : String)
    (out : List RetrievedDoc) (hout : retrieve env query = some out) :
    ∀ p ∈ out, ∃ d ∈ env.similarity_search query retrieve_top_k,
      p.text = d.page_content ∧ p.metadata = d.metadata := by
  unfold retrieve at hout
  exact rerankSelect_subset _ _ out hout

theorem retrieve_subset_of_candidates_witness :
    retrieve ⟨fun _ _ => [⟨"a", [("page", "1")]⟩], fun _ _ _ => [0]⟩ "q"
      = some [⟨"a", [("page", "1")]⟩] ∧
    ∀ p ∈ [RetrievedDoc.mk "a" [("page", "1")]],
      ∃ d ∈ (Env.mk (fun _ _ => [Document.mk "a" [("page", "1")]])
          (fun _ _ _ => [0])).similarity_search "q" retrieve_top_k,
        p.text = d.page_content ∧ p.metadata = d.metadata := by
  constructor
  · decide
  · exact retrieve_subset_of_candidates
      ⟨fun _ _ => [⟨"a", [("page", "1")]⟩], fun _ _ _ => [0]⟩ "q" _ (by decide)

/-- Claim C3: if the similarity search returns zero candidates, then
`Vectorstore.retrieve` (with a reranker satisfying its contract) returns
the empty sequence rather than failing. -/
theorem retrieve_empty_candidates (env : Env) (query : String)
    (hc : RerankContract env)
    (h0 : env.similarity_search query retrieve_top_k = []) :
    retrieve env query = some [] := by
  have hmem := (hc query ([] : List String) rerank_top_k).2
  have hnil : env.rerank query ([] : List String) rerank_top_k = [] := by
    cases hr : env.rerank query ([] : List String) rerank_top_k with
    | nil => rfl
    | cons i rest =>
      have := hmem i (by rw [hr]; exact List.mem_cons_self _ _)
      simp at this
  simp only [retrieve, h0, List.map_nil, hnil, rerankSelect]

theorem retrieve_empty_candidates_witness :
    RerankContract ⟨fun _ _ => [], fun _ _ _ => []⟩ ∧
    (Env.mk (fun _ _ => []) (fun _ _ _ => [])).similarity_search "q" retrieve_top_k = [] ∧
    retrieve ⟨fun _ _ => [], fun _ _ _ => []⟩ "q" = some [] := by
  have hc : RerankContract ⟨fun _ _ => [], fun _ _ _ => []⟩ := by
    intro q docs n
    exact ⟨Nat.zero_le n, by intro i hi; cases hi⟩
  exact ⟨hc, rfl, retrieve_empty_candidates _ "q" hc rfl⟩

theorem chat_stream_call_conversation_id (bot : PaperBot)
    (retrieveFn : String → List RetrievedDoc) (search_queries : List String)
    (message : String) :
    (chat_stream_call bot retrieveFn search_queries message).conversation_id
      = bot.conversation_id := by
  unfold chat_stream_call
  split <;> rfl

/-- Claim C4 counterexample: one sub-query whose retrieval is empty gives
an empty accumulated document context, yet the `documents` argument is
passed (as an explicit empty list), not omitted. -/
theorem empty_context_documents_not_omitted :
    documentsAccum (fun _ => []) ["q"] = [] ∧
    (chat_stream_call ⟨"cid"⟩ (fun _ => []) ["q"] "m").documents ≠ none := by
  exact ⟨rfl, by decide⟩

/-- Claim C4 (amended): the `documents` argument is omitted exactly when
query planning returned zero sub-queries; with one or more sub-queries it
is always passed, holding the (possibly empty) list of retrieved
texts. -/
theorem documents_omitted_iff_no_queries (bot : PaperBot)
    (retrieveFn : String → List RetrievedDoc) (search_queries : List String)
    (message : String) :
    ((chat_stream_call bot retrieveFn search_queries message).documents = none
      ↔ search_queries = []) ∧
    (search_queries ≠ [] →
      (chat_stream_call bot retrieveFn search_queries message).documents
        = some ((documentsAccum retrieveFn search_queries).map
            (fun d => DocContent.mk d.text))) := by
  unfold chat_stream_call
  by_cases h : search_queries = []
  · simp [h]
  · simp [h]

theorem documents_omitted_iff_no_queries_witness :
    ((chat_stream_call ⟨"cid"⟩ (fun _ => []) ["q"] "m").documents = none ↔ (["q"] : List String) = []) ∧
    (chat_stream_call ⟨"cid"⟩ (fun _ => []) ["q"] "m").documents
      = some ((documentsAccum (fun _ => []) ["q"]).map (fun d => DocContent.mk d.text)) := by
  have h := documents_omitted_iff_no_queries ⟨"cid"⟩ (fun _ => []) ["q"] "m"
  exact ⟨h.1, h.2 (by decide)⟩

/-- Claim C5: with zero search queries, `chat_completion` invokes the
streaming call with no document context at all. -/
theorem no_queries_no_documents (bot : PaperBot)
    (retrieveFn : String → List RetrievedDoc) (message : String) :
    (chat_stream_call bot retrieveFn [] message).documents = none := by
  simp [chat_stream_call]

theorem documentsAccum_eq_flatten (retrieveFn : String → List RetrievedDoc) :
    ∀ qs, documentsAccum retrieveFn qs = (qs.map retrieveFn).flatten := by
  intro qs
  induction qs with
  | nil => rfl
  | cons q qs ih => simp [documentsAccum, ih]

theorem documentsAccum_count (retrieveFn : String → List RetrievedDoc)
    (d : RetrievedDoc) :
    ∀ qs, (documentsAccum retrieveFn qs).count d
      = (qs.map (fun q => (retrieveFn q).count d)).sum := by
  intro qs
  induction qs with
  | nil => rfl
  | cons q qs ih => simp [documentsAccum, List.count_append, ih]

/-- Claim C9: with one or more sub-queries, the accumulated document
context is the concatenation of the per-sub-query retrieval results in
sub-query order, and no deduplication happens: each passage occurs as
many times as the sub-queries together retrieved it. -/
theorem documents_concat_no_dedup (bot : PaperBot)
    (retrieveFn : String → List RetrievedDoc) (search_queries : List String)
    (message : String) (h : search_queries ≠ []) :
    documentsAccum retrieveFn search_queries = (search_queries.map retrieveFn).flatten ∧
    (chat_stream_call bot retrieveFn search_queries message).documents
      = some (((search_queries.map retrieveFn).flatten).map
          (fun d => DocContent.mk d.text)) ∧
    ∀ d : RetrievedDoc, (documentsAccum retrieveFn search_queries).count d
      = (search_queries.map (fun q => (retrieveFn q).count d)).sum := by
  refine ⟨documentsAccum_eq_flatten retrieveFn search_queries, ?_,
    fun d => documentsAccum_count retrieveFn d search_queries⟩
  rw [← documentsAccum_eq_flatten]
  simp [chat_stream_call, h]

theorem documents_concat_no_dedup_witness :
    documentsAccum (fun _ => [⟨"p", []⟩]) ["q1", "q2"]
      = ((["q1", "q2"].map (fun _ => [RetrievedDoc.mk "p" []])).flatten) ∧
    (chat_stream_call ⟨"cid"⟩ (fun _ => [⟨"p", []⟩]) ["q1", "q2"] "m").documents
      = some (((["q1", "q2"].map (fun _ => [RetrievedDoc.mk "p" []])).flatten).map
          (fun d => DocContent.mk d.text)) ∧
    ∀ d : RetrievedDoc, (documentsAccum (fun _ => [⟨"p", []⟩]) ["q1", "q2"]).count d
      = ((["q1", "q2"].map (fun _ => ([RetrievedDoc.mk "p" []]).count d)).sum) :=
  documents_concat_no_dedup ⟨"cid"⟩ (fun _ => [⟨"p", []⟩]) ["q1", "q2"] "m" (by decide)

/-- Claim C10: the document context sent to the grounded streaming call
carries only the text field of each retrieved passage; the metadata is
dropped. -/
theorem documents_sent_text_only (bot : PaperBot)
    (retrieveFn : String → List RetrievedDoc) (search_queries : List String)
    (message : String) (h : search_queries ≠ []) :
    (chat_stream_call bot retrieveFn search_queries message).documents
      = some ((documentsAccum retrieveFn search_queries).map
          (fun d => DocContent.mk d.text)) := by
  simp [chat_stream_call, h]

theorem documents_sent_text_only_witness :
    (chat_stream_call ⟨"cid"⟩ (fun _ => [⟨"p", [("page", "2")]⟩]) ["q"] "m").documents
      = some ((documentsAccum (fun _ => [⟨"p", [("page", "2")]⟩]) ["q"]).map
          (fun d => DocContent.mk d.text)) :=
  documents_sent_text_only ⟨"cid"⟩ (fun _ => [⟨"p", [("page", "2")]⟩]) ["q"] "m" (by decide)

/-- Claim C8: every `chat_completion` call of one `PaperBot` instance
passes the conversation id stored at construction, so any two calls use
an identical session identifier. -/
theorem conversation_id_stable (bot : PaperBot)
    (rf1 rf2 : String → List RetrievedDoc) (sq1 sq2 : List String)
    (m1 m2 : String) :
    (chat_stream_call bot rf1 sq1 m1).conversation_id = bot.conversation_id ∧
    (chat_stream_call bot rf2 sq2 m2).conversation_id
      = (chat_stream_call bot rf1 sq1 m1).conversation_id := by
  refine ⟨chat_stream_call_conversation_id bot rf1 sq1 m1, ?_⟩
  rw [chat_stream_call_conversation_id, chat_stream_call_conversation_id]

/-- Claim C6: for an event stream with both text-generation and citation
events, the output sequence is the text chunks followed by the citation
block, so every text chunk sits at an earlier position than every element
of the trailing block. -/
theorem text_chunks_before_citation_block (events : List StreamEvent)
    (_ht : ∃ e ∈ events, isTextEvent e = true)
    (_hc : ∃ e ∈ events, isCitationEvent e = true) :
    (chat_completion_output events).take (processStream events).stream_responses.length
      = (processStream events).stream_responses ∧
    (chat_completion_output events).drop (processStream events).stream_responses.length
      = citationBlock (processStream events).citations
          (processStream events).cited_documents := by
  unfold chat_completion_output
  exact ⟨List.take_left .., List.drop_left ..⟩

theorem text_chunks_before_citation_block_witness :
    (∃ e ∈ [StreamEvent.textGeneration "x", StreamEvent.citationGeneration ["c1"]],
      isTextEvent e = true) ∧
    (∃ e ∈ [StreamEvent.textGeneration "x", StreamEvent.citationGeneration ["c1"]],
      isCitationEvent e = true) ∧
    ((chat_completion_output [StreamEvent.textGeneration "x",
        StreamEvent.citationGeneration ["c1"]]).take
      (processStream [StreamEvent.textGeneration "x",
        StreamEvent.citationGeneration ["c1"]]).stream_responses.length
      = (processStream [StreamEvent.textGeneration "x",
          StreamEvent.citationGeneration ["c1"]]).stream_responses ∧
    (chat_completion_output [StreamEvent.textGeneration "x",
        StreamEvent.citationGeneration ["c1"]]).drop
      (processStream [StreamEvent.textGeneration "x",
        StreamEvent.citationGeneration ["c1"]]).stream_responses.length
      = citationBlock
          (processStream [StreamEvent.textGeneration "x",
            StreamEvent.citationGeneration ["c1"]]).citations
          (processStream [StreamEvent.textGeneration "x",
            StreamEvent.citationGeneration ["c1"]]).cited_documents) :=
  ⟨⟨.textGeneration "x", by decide⟩, ⟨.citationGeneration ["c1"], by decide⟩,
    text_chunks_before_citation_block _
      ⟨.textGeneration "x", by decide⟩ ⟨.citationGeneration ["c1"], by decide⟩⟩

/-- Claim C7: with a non-empty citations buffer the appended trailing
output is exactly the CITATIONS header, the citations in arrival order,
the DOCUMENTS header and each cited document id followed by a comma and a
space; with an empty buffer nothing is appended. -/
theorem citation_block_exact_format (events : List StreamEvent) :
    ((processStream events).citations ≠ [] →
      (chat_completion_output events).drop
          (processStream events).stream_responses.length
        = "\n\nCITATIONS:" :: ((processStream events).citations
            ++ ["\nDOCUMENTS:"]
            ++ (processStream events).cited_documents.map (fun d => d.id ++ ", "))) ∧
    ((processStream events).citations = [] →
      chat_completion_output events = (processStream events).stream_responses) := by
  constructor
  · intro h
    unfold chat_completion_output
    rw [List.drop_left]
    simp [citationBlock, h]
  · intro h
    unfold chat_completion_output
    simp [citationBlock, h]

theorem citation_block_exact_format_witness :
    (processStream [StreamEvent.citationGeneration ["c1", "c2"],
        StreamEvent.searchResults [⟨"d1"⟩, ⟨"d2"⟩]]).citations ≠ [] ∧
    (chat_completion_output [StreamEvent.citationGeneration ["c1", "c2"],
        StreamEvent.searchResults [⟨"d1"⟩, ⟨"d2"⟩]]).drop
      (processStream [StreamEvent.citationGeneration ["c1", "c2"],
        StreamEvent.searchResults [⟨"d1"⟩, ⟨"d2"⟩]]).stream_responses.length
      = "\n\nCITATIONS:" :: ((processStream [StreamEvent.citationGeneration ["c1", "c2"],
            StreamEvent.searchResults [⟨"d1"⟩, ⟨"d2"⟩]]).citations
          ++ ["\nDOCUMENTS:"]
          ++ (processStream [StreamEvent.citationGeneration ["c1", "c2"],
              StreamEvent.searchResults [⟨"d1"⟩, ⟨"d2"⟩]]).cited_documents.map
            (fun d => d.id ++ ", ")) :=
  ⟨by decide,
    (citation_block_exact_format [StreamEvent.citationGeneration ["c1", "c2"],
      StreamEvent.searchResults [⟨"d1"⟩, ⟨"d2"⟩]]).1 (by decide)⟩

end PaperBotSpec
